import Mathlib

/-!
# tailwind.config.js

A shallow embedding of `tailwind.config.js`: the two object literals the file
builds, and the two top-level assignment statements that store them.

The file is

```
module.exports = { content: [...], darkMode: 'class', theme: { extend: {} }, plugins: [] }
tailwind.config = { content: [...], darkMode: 'class',
                    theme: { extend: { colors: { ... } } } }
```

JavaScript values are embedded as a small value type; an object literal is the
list of its own properties in source order.
-/

namespace TailwindConfig

/-! ## Values -/

/-- JavaScript values occurring in the file or in the bindings of its free
identifiers. An array carries its elements and its named (non-index) own
properties, the latter empty for an array literal. -/
inductive JSValue where
  | undefined : JSValue
  | null : JSValue
  | str : String → JSValue
  | arr : List JSValue → List (String × JSValue) → JSValue
  | obj : List (String × JSValue) → JSValue

/-- Own-property lookup in a property list: the first binding of the key. -/
def lookupField (k : String) : List (String × JSValue) → Option JSValue
  | [] => none
  | (k', v) :: rest => if k' = k then some v else lookupField k rest

/-- Property write on a property list: an existing key keeps its position and
gets the new value, a new key is appended. -/
def setField (k : String) (v : JSValue) : List (String × JSValue) → List (String × JSValue)
  | [] => [(k, v)]
  | (k', v') :: rest => if k' = k then (k, v) :: rest else (k', v') :: setField k v rest

/-- Reading `o.k` where it is an own property; `none` stands for a read that
yields `undefined` because no such property exists. -/
def JSValue.getProp (o : JSValue) (k : String) : Option JSValue :=
  match o with
  | .obj fields => lookupField k fields
  | .arr _ props => lookupField k props
  | _ => none

/-! ## The two object literals -/

/-- The literal `['./pages/**/*.{html,js}', './components/**/*.{html,js}']`
(lines 3 and 13). -/
def contentLiteral : JSValue :=
  .arr [.str "./pages/**/*.{html,js}", .str "./components/**/*.{html,js}"] []

/-- The object literal assigned to `module.exports` (lines 2 to 10). -/
def module.exports : JSValue :=
  .obj [
    ("content", contentLiteral),
    ("darkMode", .str "class"),
    ("theme", .obj [
      ("extend", .obj [])
    ]),
    ("plugins", .arr [] [])
  ]

/-- The object literal assigned to `tailwind.config` (lines 12 to 23). -/
def tailwind.config : JSValue :=
  .obj [
    ("content", contentLiteral),
    ("darkMode", .str "class"),
    ("theme", .obj [
      ("extend", .obj [
        ("colors", .obj [
          ("primary-color", .str "var(--primary-color)"),
          ("secondary-color", .str "var(--secondary-color)")
        ])
      ])
    ])
  ]

/-- The two configuration records of the file, in source order. -/
def configRecords : List JSValue := [module.exports, tailwind.config]

/-! ## Projections -/

/-- The own properties of an object, empty for anything else. -/
def JSValue.fields : JSValue → List (String × JSValue)
  | .obj fs => fs
  | _ => []

/-- The names of the own properties of an object, in order. -/
def JSValue.keys (o : JSValue) : List String := o.fields.map Prod.fst

/-- The value of `r.theme.extend`, when both properties exist. -/
def themeExtend (r : JSValue) : Option JSValue :=
  (r.getProp "theme").bind (fun t => t.getProp "extend")

/-- The value of `r.theme.extend.colors`, when all three properties exist. -/
def themeExtendColors (r : JSValue) : Option JSValue :=
  (themeExtend r).bind (fun e => e.getProp "colors")

/-- The entries of `r.theme.extend.colors`; none when the mapping is absent. -/
def colorEntries (r : JSValue) : List (String × JSValue) :=
  match themeExtendColors r with
  | some c => c.fields
  | none => []

/-- Looking a token name up in `r.theme.extend.colors`. -/
def colorLookup (r : JSValue) (name : String) : Option JSValue :=
  (themeExtendColors r).bind (fun c => c.getProp name)

/-- The elements of an array, empty for anything else. -/
def JSValue.items : JSValue → List JSValue
  | .arr xs _ => xs
  | _ => []

/-- The glob patterns of `r.content`. -/
def contentPatterns (r : JSValue) : List JSValue :=
  match r.getProp "content" with
  | some c => c.items
  | none => []

/-! ## Syntactic checks used by the schema properties -/

/-- Characters of an identifier in a custom-property name. -/
def isIdentChar (c : Char) : Bool :=
  c.isAlphanum || c == '-' || c == '_'

/-- Scanner for brace groups: `depth` counts the open groups and `fresh` tells
that the last character opened one. A closing brace needs an open, non-empty
group; at the end every group must be closed. -/
def bracesOkFrom : Nat → Bool → List Char → Bool
  | depth, _, [] => depth == 0
  | depth, _, '{' :: rest => bracesOkFrom (depth + 1) true rest
  | 0, _, '}' :: _ => false
  | _ + 1, true, '}' :: _ => false
  | depth + 1, false, '}' :: rest => bracesOkFrom depth false rest
  | depth, _, _ :: rest => bracesOkFrom depth false rest

/-- Brace groups of a pattern are balanced and non-empty. -/
def bracesOk (s : String) : Bool := bracesOkFrom 0 false s.data

/-- The string `s` begins with the characters of `pre`. -/
def startsWith (pre s : String) : Bool := pre.data.isPrefixOf s.data

/-! ## Evaluating the file -/

/-- The errors a member assignment can raise. -/
inductive JSError where
  | referenceError : String → JSError
  | typeError : JSError

/-- The outcome of a statement or of the file. -/
inductive Outcome (α : Type) where
  | ok : α → Outcome α
  | threw : JSError → Outcome α

/-- The identifiers bound in the scope the file runs in. -/
abbrev Env := List (String × JSValue)

/-- A top-level statement `ident.prop = value` whose right-hand side is a
literal. -/
structure Assign where
  ident : String
  prop : String
  value : JSValue

/-- Executing `ident.prop = value`. The base identifier is resolved first: an
unbound identifier raises a ReferenceError, `undefined` and `null` raise a
TypeError, a string silently drops the write (the file has no strict-mode
directive), an object or array stores the property. -/
def execAssign (env : Env) (s : Assign) : Outcome Env :=
  match lookupField s.ident env with
  | none => .threw (.referenceError s.ident)
  | some .undefined => .threw .typeError
  | some .null => .threw .typeError
  | some (.str _) => .ok env
  | some (.arr xs props) => .ok (setField s.ident (.arr xs (setField s.prop s.value props)) env)
  | some (.obj fs) => .ok (setField s.ident (.obj (setField s.prop s.value fs)) env)

/-- Executing statements in order; the first error ends the run. -/
def execAll (env : Env) : List Assign → Outcome Env
  | [] => .ok env
  | s :: rest =>
    match execAssign env s with
    | .ok env' => execAll env' rest
    | .threw e => .threw e

/-- The two top-level statements of the file, in order (lines 2 and 12). -/
def program : List Assign :=
  [⟨"module", "exports", module.exports⟩, ⟨"tailwind", "config", tailwind.config⟩]

/-- Evaluating the file in an environment. -/
def evalFile (env : Env) : Outcome Env := execAll env program

/-- The file completed without raising. -/
def Outcome.completes {α : Type} : Outcome α → Prop
  | .ok _ => True
  | .threw _ => False

/-! ## Lemmas on property lists -/

theorem lookupField_setField_same (k : String) (v : JSValue) (l : List (String × JSValue)) :
    lookupField k (setField k v l) = some v := by
  induction l with
  | nil => simp [setField, lookupField]
  | cons kv rest ih =>
    obtain ⟨k', v'⟩ := kv
    by_cases h : k' = k
    · simp [setField, lookupField, h]
    · simp [setField, lookupField, h, ih]

theorem lookupField_setField_ne (k j : String) (v : JSValue) (l : List (String × JSValue))
    (hne : j ≠ k) : lookupField j (setField k v l) = lookupField j l := by
  induction l with
  | nil => simp [setField, lookupField, Ne.symm hne]
  | cons kv rest ih =>
    obtain ⟨k', v'⟩ := kv
    by_cases h : k' = k
    · subst h
      simp [setField, lookupField, Ne.symm hne]
    · by_cases h2 : k' = j
      · subst h2
        simp [setField, lookupField, h]
      · simp [setField, lookupField, h, h2, ih]

/-! ## Schema properties of the two records -/

/-- The brace scanner accepts a closed non-empty group and rejects an empty
group, an unclosed group and a stray closing brace. -/
theorem bracesOk_examples :
    bracesOk "*.{html}" = true ∧ bracesOk "*.{}" = false ∧
    bracesOk "*.\x7bhtml" = false ∧ bracesOk "*.html\x7d" = false := by
  decide

/-- C1: in each of the two configuration records, the keys of
theme.extend.colors are pairwise distinct, every key is a non-empty string and
every value is the string "var(--" followed by a non-empty identifier followed
by ")". -/
theorem colors_entries_wellformed (r : JSValue) (hr : r ∈ configRecords) :
    ((colorEntries r).map Prod.fst).Nodup ∧
    ∀ k v, (k, v) ∈ colorEntries r →
      k ≠ "" ∧
      ∃ ident : String, ident ≠ "" ∧ ident.data.all isIdentChar = true ∧
        v = .str ("var(--" ++ ident ++ ")") := by
  simp only [configRecords, List.mem_cons, List.mem_singleton, List.not_mem_nil, or_false] at hr
  rcases hr with rfl | rfl
  · have h : colorEntries module.exports = [] := rfl
    simp [h]
  · have h : colorEntries tailwind.config =
        [("primary-color", .str "var(--primary-color)"),
         ("secondary-color", .str "var(--secondary-color)")] := rfl
    rw [h]
    refine ⟨by decide, ?_⟩
    intro k v hkv
    simp only [List.mem_cons, List.mem_singleton, List.not_mem_nil, or_false, Prod.mk.injEq] at hkv
    rcases hkv with ⟨rfl, rfl⟩ | ⟨rfl, rfl⟩
    · exact ⟨by decide, "primary-color", by decide, by decide, rfl⟩
    · exact ⟨by decide, "secondary-color", by decide, by decide, rfl⟩

theorem colors_entries_wellformed_witness :
    tailwind.config ∈ configRecords ∧
    (("primary-color", JSValue.str "var(--primary-color)") ∈ colorEntries tailwind.config) ∧
    ("primary-color" ≠ "" ∧
      ∃ ident : String, ident ≠ "" ∧ ident.data.all isIdentChar = true ∧
        JSValue.str "var(--primary-color)" = .str ("var(--" ++ ident ++ ")")) :=
  have hr : tailwind.config ∈ configRecords := by simp [configRecords]
  have hm : ("primary-color", JSValue.str "var(--primary-color)") ∈
      colorEntries tailwind.config := by
    have h : colorEntries tailwind.config =
        [("primary-color", .str "var(--primary-color)"),
         ("secondary-color", .str "var(--secondary-color)")] := rfl
    rw [h]; exact List.mem_cons_self _ _
  ⟨hr, hm, (colors_entries_wellformed tailwind.config hr).2 _ _ hm⟩

/-- C2: in each of the two configuration records, every element of content is
a string that is non-empty, starts with "./", does not start with "/", and
whose brace groups are balanced and non-empty. -/
theorem content_patterns_valid (r : JSValue) (hr : r ∈ configRecords)
    (p : JSValue) (hp : p ∈ contentPatterns r) :
    ∃ s : String, p = .str s ∧ s ≠ "" ∧ startsWith "./" s = true ∧
      startsWith "/" s = false ∧ bracesOk s = true := by
  have hc : ∀ q, q ∈ contentPatterns r →
      q = .str "./pages/**/*.{html,js}" ∨ q = .str "./components/**/*.{html,js}" := by
    simp only [configRecords, List.mem_cons, List.mem_singleton, List.not_mem_nil, or_false] at hr
    intro q hq
    have h1 : contentPatterns module.exports =
        [.str "./pages/**/*.{html,js}", .str "./components/**/*.{html,js}"] := rfl
    have h2 : contentPatterns tailwind.config =
        [.str "./pages/**/*.{html,js}", .str "./components/**/*.{html,js}"] := rfl
    rcases hr with rfl | rfl
    · rw [h1] at hq
      simpa using hq
    · rw [h2] at hq
      simpa using hq
  rcases hc p hp with rfl | rfl
  · exact ⟨_, rfl, by decide, by decide, by decide, by decide⟩
  · exact ⟨_, rfl, by decide, by decide, by decide, by decide⟩

theorem content_patterns_valid_witness :
    module.exports ∈ configRecords ∧
    (JSValue.str "./pages/**/*.{html,js}" ∈ contentPatterns module.exports) ∧
    ∃ s : String, JSValue.str "./pages/**/*.{html,js}" = .str s ∧ s ≠ "" ∧
      startsWith "./" s = true ∧ startsWith "/" s = false ∧ bracesOk s = true :=
  have hr : module.exports ∈ configRecords := by simp [configRecords]
  have hp : JSValue.str "./pages/**/*.{html,js}" ∈ contentPatterns module.exports := by
    have h1 : contentPatterns module.exports =
        [.str "./pages/**/*.{html,js}", .str "./components/**/*.{html,js}"] := rfl
    rw [h1]; exact List.mem_cons_self _ _
  ⟨hr, hp, content_patterns_valid module.exports hr _ hp⟩

/-- C3: in each of the two configuration records, darkMode is the string
"class", which is one of the recognized values "class" and "media". -/
theorem darkMode_is_class (r : JSValue) (hr : r ∈ configRecords) :
    r.getProp "darkMode" = some (.str "class") ∧
    ∃ m : String, m ∈ ["class", "media"] ∧ r.getProp "darkMode" = some (.str m) := by
  simp only [configRecords, List.mem_cons, List.mem_singleton, List.not_mem_nil, or_false] at hr
  rcases hr with rfl | rfl
  · exact ⟨rfl, "class", by simp, rfl⟩
  · exact ⟨rfl, "class", by simp, rfl⟩

theorem darkMode_is_class_witness :
    tailwind.config ∈ configRecords ∧
    tailwind.config.getProp "darkMode" = some (.str "class") ∧
    ∃ m : String, m ∈ ["class", "media"] ∧
      tailwind.config.getProp "darkMode" = some (.str m) :=
  have hr : tailwind.config ∈ configRecords := by simp [configRecords]
  ⟨hr, darkMode_is_class tailwind.config hr⟩

/-! ## Color tokens -/

/-- C9: every entry of theme.extend.colors in tailwind.config binds its key to
the custom property of the same name: the value is "var(--" followed by the key
followed by ")". -/
theorem colors_bound_to_same_name (k : String) (v : JSValue)
    (h : (k, v) ∈ colorEntries tailwind.config) :
    v = .str ("var(--" ++ k ++ ")") := by
  have he : colorEntries tailwind.config =
      [("primary-color", .str "var(--primary-color)"),
       ("secondary-color", .str "var(--secondary-color)")] := rfl
  rw [he] at h
  simp only [List.mem_cons, List.mem_singleton, List.not_mem_nil, or_false, Prod.mk.injEq] at h
  rcases h with ⟨rfl, rfl⟩ | ⟨rfl, rfl⟩
  · rfl
  · rfl

theorem colors_bound_to_same_name_witness :
    (("secondary-color", JSValue.str "var(--secondary-color)") ∈ colorEntries tailwind.config) ∧
    JSValue.str "var(--secondary-color)" = .str ("var(--" ++ "secondary-color" ++ ")") :=
  have h : ("secondary-color", JSValue.str "var(--secondary-color)") ∈
      colorEntries tailwind.config := by
    have he : colorEntries tailwind.config =
        [("primary-color", .str "var(--primary-color)"),
         ("secondary-color", .str "var(--secondary-color)")] := rfl
    rw [he]; simp
  ⟨h, colors_bound_to_same_name _ _ h⟩

/-- C4 fails on the code: in the scope a config module is loaded in (`module`
bound to the object with an empty `exports`, `tailwind` not bound), the first
statement stores the first record under `module.exports`, and that record has no
theme.extend.colors, so looking up "primary-color" or "secondary-color" in it
finds no entry. The two tokens are declared only in the sibling literal of the
second statement, which raises a ReferenceError before storing it. -/
theorem exported_record_lacks_color_tokens :
    execAssign [("module", .obj [("exports", .obj [])])]
        ⟨"module", "exports", module.exports⟩ =
      .ok [("module", .obj [("exports", module.exports)])] ∧
    (lookupField "module" [("module", .obj [("exports", module.exports)])]).bind
        (fun m => m.getProp "exports") = some module.exports ∧
    themeExtend module.exports = some (.obj []) ∧
    themeExtendColors module.exports = none ∧
    colorLookup module.exports "primary-color" = none ∧
    colorLookup module.exports "secondary-color" = none ∧
    colorLookup module.exports "primary-color" ≠ some (.str "var(--primary-color)") ∧
    colorLookup tailwind.config "primary-color" = some (.str "var(--primary-color)") ∧
    colorLookup tailwind.config "secondary-color" = some (.str "var(--secondary-color)") ∧
    evalFile [("module", .obj [("exports", .obj [])])] =
      .threw (.referenceError "tailwind") := by
  refine ⟨rfl, rfl, rfl, rfl, rfl, rfl, ?_, rfl, rfl, rfl⟩
  have h : colorLookup module.exports "primary-color" = none := rfl
  rw [h]
  exact fun hc => Option.noConfusion hc

/-- The literal of the second statement holds exactly the two color tokens
(looking up "primary-color" yields "var(--primary-color)", looking up
"secondary-color" yields "var(--secondary-color)", any other name finds no
entry), while no lookup in the literal of the first statement finds an entry. -/
theorem color_tokens_exposed :
    colorLookup tailwind.config "primary-color" = some (.str "var(--primary-color)") ∧
    colorLookup tailwind.config "secondary-color" = some (.str "var(--secondary-color)") ∧
    (∀ name : String, name ≠ "primary-color" → name ≠ "secondary-color" →
      colorLookup tailwind.config name = none) ∧
    (∀ name : String, colorLookup module.exports name = none) := by
  refine ⟨rfl, rfl, ?_, fun _ => rfl⟩
  intro name h1 h2
  have hc : themeExtendColors tailwind.config = some (.obj
      [("primary-color", .str "var(--primary-color)"),
       ("secondary-color", .str "var(--secondary-color)")]) := rfl
  simp [colorLookup, hc, JSValue.getProp, lookupField, Ne.symm h1, Ne.symm h2]

theorem color_tokens_exposed_witness :
    "accent-color" ≠ "primary-color" ∧ "accent-color" ≠ "secondary-color" ∧
    colorLookup tailwind.config "accent-color" = none :=
  ⟨by decide, by decide,
    color_tokens_exposed.2.2.1 "accent-color" (by decide) (by decide)⟩

/-! ## The plugins field and the difference between the records -/

/-- C6, as stated, fails on the second record: tailwind.config has no plugins
property, so it is not true that both records carry plugins equal to the empty
list. -/
theorem tailwind_config_has_no_plugins :
    tailwind.config.getProp "plugins" = none ∧
    ¬ (∀ r, r ∈ configRecords → r.getProp "plugins" = some (.arr [] [])) := by
  have h : tailwind.config.getProp "plugins" = none := rfl
  refine ⟨h, fun hall => ?_⟩
  have h2 := hall tailwind.config (by simp [configRecords])
  rw [h] at h2
  exact Option.noConfusion h2

/-- C6, amended: in module.exports the plugins field is present and equals the
empty list; tailwind.config has no plugins field. -/
theorem plugins_field :
    module.exports.getProp "plugins" = some (.arr [] []) ∧
    "plugins" ∈ module.exports.keys ∧
    tailwind.config.getProp "plugins" = none ∧
    "plugins" ∉ tailwind.config.keys :=
  ⟨rfl, by decide, rfl, by decide⟩

/-- C7, as stated, fails: a field other than theme differs between the two
records, since plugins is the empty list in module.exports and absent from
tailwind.config. -/
theorem records_differ_in_plugins :
    "plugins" ≠ "theme" ∧
    module.exports.getProp "plugins" ≠ tailwind.config.getProp "plugins" ∧
    ¬ (∀ k : String, k ≠ "theme" →
        module.exports.getProp k = tailwind.config.getProp k) := by
  have h1 : module.exports.getProp "plugins" = some (.arr [] []) := rfl
  have h2 : tailwind.config.getProp "plugins" = none := rfl
  have hne : module.exports.getProp "plugins" ≠ tailwind.config.getProp "plugins" := by
    rw [h1, h2]
    exact fun hc => Option.noConfusion hc
  exact ⟨by decide, hne, fun hall => hne (hall "plugins" (by decide))⟩

/-- C7, amended: the two records have equal content lists and equal darkMode
values; theme has extend as its only key in both; theme.extend of
module.exports is the empty mapping and theme.extend of tailwind.config has
colors as its only category; plugins is the empty list in module.exports and
absent from tailwind.config; every field other than theme and plugins reads the
same in both records. -/
theorem records_diverge_in_colors_and_plugins :
    module.exports.getProp "content" = tailwind.config.getProp "content" ∧
    module.exports.getProp "content" = some contentLiteral ∧
    module.exports.getProp "darkMode" = tailwind.config.getProp "darkMode" ∧
    module.exports.getProp "darkMode" = some (.str "class") ∧
    ((module.exports.getProp "theme").map JSValue.keys = some ["extend"]) ∧
    ((tailwind.config.getProp "theme").map JSValue.keys = some ["extend"]) ∧
    themeExtend module.exports = some (.obj []) ∧
    (themeExtend tailwind.config).map JSValue.keys = some ["colors"] ∧
    module.exports.getProp "plugins" = some (.arr [] []) ∧
    tailwind.config.getProp "plugins" = none ∧
    module.exports.keys = ["content", "darkMode", "theme", "plugins"] ∧
    tailwind.config.keys = ["content", "darkMode", "theme"] ∧
    (∀ k : String, k ≠ "theme" → k ≠ "plugins" →
      module.exports.getProp k = tailwind.config.getProp k) := by
  refine ⟨rfl, rfl, rfl, rfl, rfl, rfl, rfl, rfl, rfl, rfl, rfl, rfl, ?_⟩
  intro k h1 h2
  simp [module.exports, tailwind.config, JSValue.getProp, lookupField, Ne.symm h1, Ne.symm h2]

theorem records_diverge_in_colors_and_plugins_witness :
    "content" ≠ "theme" ∧ "content" ≠ "plugins" ∧
    module.exports.getProp "content" = tailwind.config.getProp "content" :=
  ⟨by decide, by decide,
    records_diverge_in_colors_and_plugins.2.2.2.2.2.2.2.2.2.2.2.2 "content"
      (by decide) (by decide)⟩

/-! ## Evaluating the two statements -/

/-- A member assignment on an identifier bound to an object stores the
property on that object. -/
theorem execAssign_obj (env : Env) (s : Assign) (fs : List (String × JSValue))
    (h : lookupField s.ident env = some (.obj fs)) :
    execAssign env s = .ok (setField s.ident (.obj (setField s.prop s.value fs)) env) := by
  unfold execAssign
  rw [h]

/-- A member assignment on an unbound identifier raises a ReferenceError. -/
theorem execAssign_unbound (env : Env) (s : Assign) (h : lookupField s.ident env = none) :
    execAssign env s = .threw (.referenceError s.ident) := by
  unfold execAssign
  rw [h]

/-- A member assignment on an identifier bound to `undefined` raises a
TypeError. -/
theorem execAssign_undefined (env : Env) (s : Assign)
    (h : lookupField s.ident env = some .undefined) :
    execAssign env s = .threw .typeError := by
  unfold execAssign
  rw [h]

/-- Two statements in a row: the second runs in the environment the first
leaves. -/
theorem execAll_pair (env env' : Env) (s t : Assign) (h : execAssign env s = .ok env') :
    execAll env [s, t] = execAssign env' t := by
  rw [execAll, h]
  simp only [execAll]
  cases execAssign env' t <;> rfl

/-- With `module` bound to an object and `tailwind` unbound, the second
statement raises a ReferenceError. -/
theorem evalFile_tailwind_unbound (env : Env) (fs : List (String × JSValue))
    (hm : lookupField "module" env = some (.obj fs))
    (ht : lookupField "tailwind" env = none) :
    evalFile env = .threw (.referenceError "tailwind") := by
  have hne : "tailwind" ≠ "module" := by decide
  unfold evalFile program
  rw [execAll_pair env _ _ _ (execAssign_obj env ⟨"module", "exports", module.exports⟩ fs hm)]
  apply execAssign_unbound
  show lookupField "tailwind" (setField "module" _ env) = none
  rw [lookupField_setField_ne "module" "tailwind" _ env hne, ht]

/-- With `module` bound to an object and `tailwind` bound to `undefined`, the
second statement raises a TypeError. -/
theorem evalFile_tailwind_undefined (env : Env) (fs : List (String × JSValue))
    (hm : lookupField "module" env = some (.obj fs))
    (ht : lookupField "tailwind" env = some .undefined) :
    evalFile env = .threw .typeError := by
  have hne : "tailwind" ≠ "module" := by decide
  unfold evalFile program
  rw [execAll_pair env _ _ _ (execAssign_obj env ⟨"module", "exports", module.exports⟩ fs hm)]
  apply execAssign_undefined
  show lookupField "tailwind" (setField "module" _ env) = some .undefined
  rw [lookupField_setField_ne "module" "tailwind" _ env hne, ht]

/-- With both `module` and `tailwind` bound to objects the file completes, and
afterwards `module.exports` is the first record and `tailwind.config` the
second. -/
theorem evalFile_both_bound (env : Env) (fs gs : List (String × JSValue))
    (hm : lookupField "module" env = some (.obj fs))
    (ht : lookupField "tailwind" env = some (.obj gs)) :
    ∃ env', evalFile env = .ok env' ∧
      (lookupField "module" env').bind (fun m => m.getProp "exports") = some module.exports ∧
      (lookupField "tailwind" env').bind (fun t => t.getProp "config") = some tailwind.config := by
  have hne : "tailwind" ≠ "module" := by decide
  refine ⟨setField "tailwind" (.obj (setField "config" tailwind.config gs))
    (setField "module" (.obj (setField "exports" module.exports fs)) env), ?_, ?_, ?_⟩
  · unfold evalFile program
    rw [execAll_pair env _ _ _ (execAssign_obj env ⟨"module", "exports", module.exports⟩ fs hm)]
    apply execAssign_obj
    show lookupField "tailwind" (setField "module" _ env) = some (.obj gs)
    rw [lookupField_setField_ne "module" "tailwind" _ env hne, ht]
  · rw [lookupField_setField_ne "tailwind" "module" _ _ (Ne.symm hne),
      lookupField_setField_same]
    simp [JSValue.getProp, lookupField_setField_same]
  · rw [lookupField_setField_same]
    simp [JSValue.getProp, lookupField_setField_same]

/-- C8 fails on the code: in an environment where `module` is bound to the
object with an empty `exports` and `tailwind` is not bound, evaluating the file
raises a ReferenceError at its second statement instead of completing. -/
theorem evalFile_node_environment_throws :
    lookupField "module" [("module", .obj [("exports", .obj [])])] =
      some (.obj [("exports", .obj [])]) ∧
    lookupField "tailwind" [("module", .obj [("exports", .obj [])])] = none ∧
    evalFile [("module", .obj [("exports", .obj [])])] =
      .threw (.referenceError "tailwind") ∧
    ¬ (evalFile [("module", .obj [("exports", .obj [])])]).completes := by
  have h : evalFile [("module", .obj [("exports", .obj [])])] =
      .threw (.referenceError "tailwind") := rfl
  refine ⟨rfl, rfl, h, ?_⟩
  rw [h]
  exact fun hc => hc

end TailwindConfig
